import Mathlib

/-!
Verification development for the amp-search-tool backend relay.

The repository is a small Express backend that forwards prompts to AWS
Bedrock (an agent endpoint and a retrieval-and-generate endpoint) and
resolves citation storage references into signed URLs.  This file gives a
shallow embedding of the five source files:

* `src/utils.js` (shipped as `src/unnamed/part_001`): `sanitize` and
  `sanitizeSessionID`.
* `src/retrieval.js`: `parseS3Uri`, `parseCitation` and
  `invokeBedrockRetrieval`.
* `src/agent.js`: `invokeBedrockAgent`.
* `src/index.js` (shipped as `src/unnamed/part_000`): the `POST /retrieve`
  handler.

JavaScript strings are modelled as Lean `String` (a wrapper around
`List Char`); `undefined` is `Option.none`; a function that can throw
returns `Except JsError`; a promise that can reject likewise returns
`Except JsError`.  `Promise.all` over an array of promises is `promiseAll`,
which fails as soon as any element fails, matching the observable result of
a rejected `Promise.all`.  Network collaborators (the Bedrock upstream, the
S3 signer) are stubbed as explicit parameters, matching the spec's "stub
upstream" test vocabulary.
-/

/-- A thrown JavaScript error: its message and its optional numeric `code`
field (`error?.code` is `undefined` for plain `Error` and `TypeError`). -/
structure JsError where
  message : String
  code : Option Nat
deriving DecidableEq, Repr

/-- The characters trimmed by JavaScript `String.prototype.trim` (ASCII
whitespace, NBSP, the Unicode space separators, line separators and BOM). -/
def jsWhitespaceChars : List Char :=
  [' ', '\t', '\n', '\r', '\x0b', '\x0c', ' ', ' ', ' ',
   ' ', ' ', ' ', ' ', ' ', ' ', ' ',
   ' ', ' ', ' ', ' ', ' ', ' ', ' ',
   '　', '﻿']

/-- Whether a character is JavaScript whitespace for `trim`. -/
def isJsWhitespace (c : Char) : Bool := jsWhitespaceChars.contains c

/-- JavaScript `s.trim()`: drop whitespace from both ends. -/
def jsTrim (s : String) : String :=
  String.mk (((s.data.dropWhile isJsWhitespace).reverse.dropWhile
    isJsWhitespace).reverse)

/-- JavaScript `s.toLowerCase()`, restricted to the ASCII range (the only
range the repository feeds through it that the claims depend on). -/
def jsToLower (s : String) : String := String.mk (s.data.map Char.toLower)

/-- The characters removed by the `replace(/[<>;&|]/g, ...)` step of
`sanitize` in `src/utils.js`. -/
def isStrippedChar (c : Char) : Bool :=
  c == '<' || c == '>' || c == ';' || c == '&' || c == '|'

/-- JavaScript `s.replace(/target/g, repl)` for a single-character target:
every occurrence of `target` is replaced by the list `repl`, without
rescanning the replacement text. -/
def replaceAll (target : Char) (repl : List Char) : List Char → List Char
  | [] => []
  | c :: cs => (if c = target then repl else [c]) ++ replaceAll target repl cs

/-- The cleaning chain of `sanitize` in `src/utils.js`:
`prompt.trim().toLowerCase().replace(/[<>;&|]/g, "")` followed by the three
entity-escape replacements for `&`, `<` and `>`, in source order. -/
def sanitizeClean (prompt : String) : String :=
  String.mk (replaceAll '>' "&gt;".data (replaceAll '<' "&lt;".data
    (replaceAll '&' "&amp;".data
      (((jsTrim prompt).data.map Char.toLower).filter
        (fun c => !(isStrippedChar c))))))

/-- Modelled from the spec wording of section 4.1 for comparison in the
refinement claim: the same pipeline with the escape steps omitted (trim,
then lowercase, then removal of the literal characters). -/
def sanitizeCleanNoEscape (prompt : String) : String :=
  String.mk (((jsTrim prompt).data.map Char.toLower).filter
    (fun c => !(isStrippedChar c)))

/-- The `sanitize` function of `src/utils.js`: clean the prompt and throw
`Error("Prompt is too long")` when the cleaned length exceeds 2048. -/
def sanitize (prompt : String) : Except JsError String :=
  let sanitizedPrompt := sanitizeClean prompt
  if sanitizedPrompt.length > 2048 then
    .error { message := "Prompt is too long", code := none }
  else
    .ok sanitizedPrompt

/-- The character class `[0-9a-zA-Z._:-]` kept by `sanitizeSessionID`. -/
def isSessionIdChar (c : Char) : Bool :=
  c.isDigit || c.isLower || c.isUpper ||
    c == '.' || c == '_' || c == ':' || c == '-'

/-- The `sanitizeSessionID` function of `src/utils.js`:
`input.replace(/[^0-9a-zA-Z._:-]/g, "")`, i.e. keep exactly the characters
of the allowed class. -/
def sanitizeSessionID (input : String) : String :=
  String.mk (input.data.filter isSessionIdChar)

/- ## Helper lemmas about the sanitizer -/

/-- Replacing a character that does not occur in a list changes nothing. -/
theorem replaceAll_of_not_mem (target : Char) (repl : List Char) :
    ∀ l : List Char, target ∉ l → replaceAll target repl l = l := by
  intro l
  induction l with
  | nil => intro _; rfl
  | cons c cs ih =>
    intro h
    have hc : c ≠ target := fun hct => h (hct ▸ List.mem_cons_self c cs)
    have hcs : target ∉ cs := fun hm => h (List.mem_cons_of_mem c hm)
    simp [replaceAll, hc, ih hcs]

/-- A character deleted by the strip step never survives the filter. -/
theorem not_mem_filter_of_stripped (c : Char) (h : isStrippedChar c = true)
    (l : List Char) : c ∉ l.filter (fun x => !(isStrippedChar x)) := by
  intro hmem
  have := (List.mem_filter.mp hmem).2
  simp [h] at this

/-- C7: the three entity-escape replacements in `sanitize` are a no-op,
because the strip step has already deleted every raw `&`, `<` and `>`; the
full cleaning chain is therefore equal, as a function, to the pipeline
trim, then lowercase, then strip. -/
theorem sanitize_escape_steps_noop (prompt : String) :
    sanitizeClean prompt = sanitizeCleanNoEscape prompt := by
  unfold sanitizeClean sanitizeCleanNoEscape
  have hamp := replaceAll_of_not_mem '&' "&amp;".data
    (((jsTrim prompt).data.map Char.toLower).filter
      (fun c => !(isStrippedChar c)))
    (not_mem_filter_of_stripped '&' rfl _)
  rw [hamp]
  have hlt := replaceAll_of_not_mem '<' "&lt;".data
    (((jsTrim prompt).data.map Char.toLower).filter
      (fun c => !(isStrippedChar c)))
    (not_mem_filter_of_stripped '<' rfl _)
  rw [hlt]
  have hgt := replaceAll_of_not_mem '>' "&gt;".data
    (((jsTrim prompt).data.map Char.toLower).filter
      (fun c => !(isStrippedChar c)))
    (not_mem_filter_of_stripped '>' rfl _)
  rw [hgt]

/-- C8: a prompt whose cleaned form is longer than 2048 characters makes
`sanitize` throw the validation error, and a prompt whose cleaned form has
length exactly 2048 makes `sanitize` succeed with the cleaned string. -/
theorem sanitize_length_boundary (prompt : String) :
    ((sanitizeClean prompt).length > 2048 →
      sanitize prompt = .error { message := "Prompt is too long", code := none }) ∧
    ((sanitizeClean prompt).length = 2048 →
      sanitize prompt = .ok (sanitizeClean prompt)) := by
  constructor
  · intro h
    simp [sanitize, h]
  · intro h
    simp [sanitize, h]

/- ## Replicate lemmas used to evaluate the sanitizer at the 2048 boundary -/

/-- Dropping with a predicate false at the replicated element drops
nothing. -/
theorem dropWhile_replicate_of_neg {α : Type} (p : α → Bool) (a : α)
    (h : p a = false) : ∀ n : Nat, (List.replicate n a).dropWhile p = List.replicate n a := by
  intro n
  cases n with
  | zero => rfl
  | succ m => simp [List.replicate, List.dropWhile, h]

/-- Filtering with a predicate true at the replicated element keeps
everything. -/
theorem filter_replicate_of_pos {α : Type} (p : α → Bool) (a : α)
    (h : p a = true) : ∀ n : Nat, (List.replicate n a).filter p = List.replicate n a := by
  intro n
  induction n with
  | zero => rfl
  | succ m ih => simp [List.replicate, List.filter, h, ih]

/-- Replacing a character other than the replicated one changes nothing. -/
theorem replaceAll_replicate_of_ne (target : Char) (repl : List Char)
    (a : Char) (h : a ≠ target) (n : Nat) :
    replaceAll target repl (List.replicate n a) = List.replicate n a := by
  apply replaceAll_of_not_mem
  intro hmem
  exact h ((List.mem_replicate.mp hmem).2.symm ▸ rfl)

/-- The cleaning chain leaves a string of letter a characters unchanged. -/
theorem sanitizeClean_replicate_a (n : Nat) :
    sanitizeClean (String.mk (List.replicate n 'a')) =
      String.mk (List.replicate n 'a') := by
  unfold sanitizeClean jsTrim
  have hws : isJsWhitespace 'a' = false := rfl
  rw [dropWhile_replicate_of_neg isJsWhitespace 'a' hws n]
  rw [List.reverse_replicate]
  rw [dropWhile_replicate_of_neg isJsWhitespace 'a' hws n]
  rw [List.reverse_replicate]
  have hmap : (List.replicate n 'a').map Char.toLower = List.replicate n 'a' := by
    rw [List.map_replicate]
    rw [show Char.toLower 'a' = 'a' from rfl]
  rw [hmap]
  rw [filter_replicate_of_pos (fun c => !(isStrippedChar c)) 'a' rfl n]
  rw [replaceAll_replicate_of_ne '&' "&amp;".data 'a' (by decide) n]
  rw [replaceAll_replicate_of_ne '<' "&lt;".data 'a' (by decide) n]
  rw [replaceAll_replicate_of_ne '>' "&gt;".data 'a' (by decide) n]

/-- The length of a string of n letter a characters is n. -/
theorem length_replicate_string (n : Nat) :
    (String.mk (List.replicate n 'a')).length = n := by
  simp [String.length]

/-- Witness for C8 at the 2048 boundary: a 2049-character prompt is
rejected and a 2048-character prompt is accepted. -/
theorem sanitize_length_boundary_witness :
    (sanitizeClean (String.mk (List.replicate 2049 'a'))).length > 2048 ∧
    sanitize (String.mk (List.replicate 2049 'a')) =
      .error { message := "Prompt is too long", code := none } ∧
    (sanitizeClean (String.mk (List.replicate 2048 'a'))).length = 2048 ∧
    sanitize (String.mk (List.replicate 2048 'a')) =
      .ok (sanitizeClean (String.mk (List.replicate 2048 'a'))) := by
  have h1 : (sanitizeClean (String.mk (List.replicate 2049 'a'))).length = 2049 := by
    rw [sanitizeClean_replicate_a, length_replicate_string]
  have h2 : (sanitizeClean (String.mk (List.replicate 2048 'a'))).length = 2048 := by
    rw [sanitizeClean_replicate_a, length_replicate_string]
  refine ⟨by omega, ?_, h2, ?_⟩
  · exact (sanitize_length_boundary (String.mk (List.replicate 2049 'a'))).1 (by omega)
  · exact (sanitize_length_boundary (String.mk (List.replicate 2048 'a'))).2 h2

/-- Counterexample for C9: the session sanitizer enforces no length bounds.
The input consisting of one exclamation mark sanitizes to the empty string
(length 0, below the claimed minimum of 2 and not matching the claimed
nonempty pattern), and a 101-character valid input keeps length 101, above
the claimed maximum of 100. -/
theorem sanitizeSessionID_length_invariant_cex :
    sanitizeSessionID "!" = "" ∧
    (sanitizeSessionID "!").length = 0 ∧
    (sanitizeSessionID (String.mk (List.replicate 101 'a'))).length = 101 := by
  refine ⟨rfl, rfl, ?_⟩
  unfold sanitizeSessionID
  rw [show (String.mk (List.replicate 101 'a')).data = List.replicate 101 'a' from rfl]
  rw [filter_replicate_of_pos isSessionIdChar 'a' rfl 101]
  exact length_replicate_string 101

/-- C9 as amended: after sanitization a session identifier consists only of
characters in the class `[0-9A-Za-z._:-]`; no minimum or maximum length is
enforced by the code. -/
theorem sanitizeSessionID_char_invariant (s : String) :
    ((sanitizeSessionID s).data.all isSessionIdChar) = true := by
  rw [List.all_eq_true]
  intro c hc
  exact (List.mem_filter.mp hc).2

/- ## Citation resolver (`src/retrieval.js`) -/

/-- The bucket and key extracted from an S3 URI. -/
structure S3Location where
  bucket : String
  key : String
deriving DecidableEq, Repr

/-- The four characters the JavaScript regular-expression dot does not
match without the `s` flag: line feed, carriage return, line separator and
paragraph separator. -/
def isJsLineTerminator (c : Char) : Bool :=
  c == '\n' || c == '\r' || c == ' ' || c == ' '

/-- The `parseS3Uri` function of `src/retrieval.js`: match the URI against
the regular expression for `s3` scheme, one-or-more non-slash bucket
characters, a slash, then a dot-star key anchored at end of input.
Because the bucket group cannot contain a slash, the bucket/key split is
uniquely at the first slash after the scheme.  The negated class of the
bucket group matches any non-slash character, line terminators included,
but the dot of the key group does not match line terminators and the end
anchor admits no trailing input, so the match fails when the key part
contains any line terminator.  The function throws
`Error("Invalid S3 URI")` when the regular expression does not match or
when the key is the empty string (the falsiness check on `key`; the bucket
group is nonempty whenever the match succeeds, so the falsiness check on
`bucket` never fires). -/
def parseS3Uri (s3Uri : String) : Except JsError S3Location :=
  match s3Uri.data with
  | 's' :: '3' :: ':' :: '/' :: '/' :: rest =>
    let bucket := rest.takeWhile (fun c => c != '/')
    match rest.dropWhile (fun c => c != '/') with
    | '/' :: key =>
      if bucket.isEmpty || key.any isJsLineTerminator then
        .error { message := "Invalid S3 URI", code := none }
      else if key.isEmpty then
        .error { message := "Invalid S3 URI", code := none }
      else
        .ok { bucket := String.mk bucket, key := String.mk key }
    | _ => .error { message := "Invalid S3 URI", code := none }
  | _ => .error { message := "Invalid S3 URI", code := none }

/-- The `location.s3Location` field of a retrieved reference. -/
structure S3LocationField where
  uri : String
deriving DecidableEq, Repr

/-- The `location` field of a retrieved reference. -/
structure ReferenceLocation where
  s3Location : S3LocationField
deriving DecidableEq, Repr

/-- One retrieved reference of a citation: its storage location plus its
other provider fields, which the code carries along unchanged through the
object spread; those other fields are modelled as one opaque string. -/
structure Reference where
  location : ReferenceLocation
  content : String
deriving DecidableEq, Repr

/-- A reference after resolution: the original fields plus the `signedUrl`
field added by the object spread in `parseCitation`. -/
structure EnrichedReference where
  location : ReferenceLocation
  content : String
  signedUrl : String
deriving DecidableEq, Repr

/-- A citation as returned by the upstream: metadata (opaque here) and the
ordered list of retrieved references. -/
structure Citation where
  metadata : String
  retrievedReferences : List Reference
deriving DecidableEq, Repr

/-- A citation after resolution. -/
structure EnrichedCitation where
  metadata : String
  retrievedReferences : List EnrichedReference
deriving DecidableEq, Repr

/-- The observable result of `Promise.all` over an array of settled
promises: the list of values when every promise fulfils, and a rejection as
soon as any promise rejects (no partial list is ever produced). -/
def promiseAll {α : Type} : List (Except JsError α) → Except JsError (List α)
  | [] => .ok []
  | x :: xs =>
    match x with
    | .error e => .error e
    | .ok a =>
      match promiseAll xs with
      | .error e => .error e
      | .ok as => .ok (a :: as)

/-- The body of the arrow function mapped over `citation.retrievedReferences`
in `parseCitation`: parse the reference URI, ask the signer collaborator
(`getSignedUrl` with `expiresIn` 3600) for a signed URL, and return the
original reference spread together with the `signedUrl` field. -/
def resolveReference (signer : S3Location → Nat → String)
    (reference : Reference) : Except JsError EnrichedReference :=
  match parseS3Uri reference.location.s3Location.uri with
  | .error e => .error e
  | .ok loc =>
    .ok { location := reference.location, content := reference.content,
          signedUrl := signer loc 3600 }

/-- The `parseCitation` closure of `invokeBedrockRetrieval` in
`src/retrieval.js` (the citation resolver of the spec): `Promise.all` over
the mapped reference list, then rebuild the citation with the enriched
references. -/
def parseCitation (signer : S3Location → Nat → String)
    (citation : Citation) : Except JsError EnrichedCitation :=
  match promiseAll (citation.retrievedReferences.map (resolveReference signer)) with
  | .error e => .error e
  | .ok retrievedReferences =>
    .ok { metadata := citation.metadata, retrievedReferences := retrievedReferences }

/-- If some element of a mapped list fails, `promiseAll` fails. -/
theorem promiseAll_map_error {α β : Type} (f : α → Except JsError β) :
    ∀ (l : List α) (a : α), a ∈ l → (∃ e, f a = .error e) →
      ∃ e, promiseAll (l.map f) = .error e := by
  intro l
  induction l with
  | nil => intro a ha _; cases ha
  | cons b bs ih =>
    intro a ha ⟨e, he⟩
    rw [List.map_cons]
    cases hfb : f b with
    | error eb => exact ⟨eb, by simp [promiseAll, hfb]⟩
    | ok v =>
      rcases List.mem_cons.mp ha with hab | hmem
      · rw [hab] at he; rw [he] at hfb; cases hfb
      · obtain ⟨e2, he2⟩ := ih a hmem ⟨e, he⟩
        refine ⟨e2, ?_⟩
        simp [promiseAll, hfb, he2]

/-- If every element of a mapped list succeeds, `promiseAll` returns the
list of results, paired with the inputs in order. -/
theorem promiseAll_map_ok {α β : Type} (f : α → Except JsError β) :
    ∀ l : List α, (∀ a ∈ l, ∃ b, f a = .ok b) →
      ∃ bs, promiseAll (l.map f) = .ok bs ∧
        List.Forall₂ (fun a b => f a = .ok b) l bs := by
  intro l
  induction l with
  | nil => intro _; exact ⟨[], rfl, List.Forall₂.nil⟩
  | cons a as ih =>
    intro h
    obtain ⟨b, hb⟩ := h a (List.mem_cons_self a as)
    obtain ⟨bs, hbs, hall⟩ := ih (fun x hx => h x (List.mem_cons_of_mem a hx))
    refine ⟨b :: bs, ?_, List.Forall₂.cons hb hall⟩
    rw [List.map_cons]
    simp [promiseAll, hb, hbs]

/-- C4: if parsing the URI of any single reference of a citation fails,
`parseCitation` fails as a whole and yields no reference list at all. -/
theorem parseCitation_fail_fast (signer : S3Location → Nat → String)
    (citation : Citation)
    (h : ∃ r, r ∈ citation.retrievedReferences ∧
      ∃ e, parseS3Uri r.location.s3Location.uri = .error e) :
    ∃ e, parseCitation signer citation = .error e := by
  obtain ⟨r, hr, e, he⟩ := h
  have hres : ∃ e2, resolveReference signer r = .error e2 := by
    refine ⟨e, ?_⟩
    simp [resolveReference, he]
  obtain ⟨e3, he3⟩ :=
    promiseAll_map_error (resolveReference signer)
      citation.retrievedReferences r hr hres
  exact ⟨e3, by simp [parseCitation, he3]⟩

/-- Witness for C4: a citation whose second reference has the malformed URI
fails as a whole, with no partial list of the two well-formed neighbours. -/
theorem parseCitation_fail_fast_witness :
    (∃ r, r ∈ [
        Reference.mk (ReferenceLocation.mk (S3LocationField.mk "s3://docs/a.pdf")) "r1",
        Reference.mk (ReferenceLocation.mk (S3LocationField.mk "not-a-uri")) "r2",
        Reference.mk (ReferenceLocation.mk (S3LocationField.mk "s3://docs/b.pdf")) "r3"] ∧
      ∃ e, parseS3Uri r.location.s3Location.uri = .error e) ∧
    ∃ e, parseCitation (fun _ _ => "https://signed.example/doc")
      { metadata := "m",
        retrievedReferences := [
          Reference.mk (ReferenceLocation.mk (S3LocationField.mk "s3://docs/a.pdf")) "r1",
          Reference.mk (ReferenceLocation.mk (S3LocationField.mk "not-a-uri")) "r2",
          Reference.mk (ReferenceLocation.mk (S3LocationField.mk "s3://docs/b.pdf")) "r3"] } =
      .error e := by
  have hhyp : ∃ r, r ∈ [
      Reference.mk (ReferenceLocation.mk (S3LocationField.mk "s3://docs/a.pdf")) "r1",
      Reference.mk (ReferenceLocation.mk (S3LocationField.mk "not-a-uri")) "r2",
      Reference.mk (ReferenceLocation.mk (S3LocationField.mk "s3://docs/b.pdf")) "r3"] ∧
      ∃ e, parseS3Uri r.location.s3Location.uri = .error e := by
    refine ⟨Reference.mk (ReferenceLocation.mk (S3LocationField.mk "not-a-uri")) "r2",
      by decide, { message := "Invalid S3 URI", code := none }, rfl⟩
  exact ⟨hhyp, parseCitation_fail_fast (fun _ _ => "https://signed.example/doc") _ hhyp⟩


/-- C5: when every reference URI of a citation parses and the signer
collaborator returns nonempty URLs, `parseCitation` succeeds and returns
exactly as many enriched references as there were references, in the same
order, each equal to the original reference plus a nonempty `signedUrl`. -/
theorem parseCitation_resolves_all (signer : S3Location → Nat → String)
    (citation : Citation)
    (hok : ∀ r ∈ citation.retrievedReferences,
      ∃ loc, parseS3Uri r.location.s3Location.uri = .ok loc)
    (hsigner : ∀ loc, signer loc 3600 ≠ "") :
    ∃ ec, parseCitation signer citation = .ok ec ∧
      ec.metadata = citation.metadata ∧
      ec.retrievedReferences.length = citation.retrievedReferences.length ∧
      List.Forall₂ (fun r er => er.location = r.location ∧
          er.content = r.content ∧ er.signedUrl ≠ "")
        citation.retrievedReferences ec.retrievedReferences := by
  have hall : ∀ r ∈ citation.retrievedReferences,
      ∃ er, resolveReference signer r = .ok er := by
    intro r hr
    obtain ⟨loc, hloc⟩ := hok r hr
    refine ⟨EnrichedReference.mk r.location r.content (signer loc 3600), ?_⟩
    simp [resolveReference, hloc]
  obtain ⟨ers, hers, hforall⟩ :=
    promiseAll_map_ok (resolveReference signer) citation.retrievedReferences hall
  have hlen : ers.length = citation.retrievedReferences.length :=
    (List.Forall₂.length_eq hforall).symm
  have hprop : List.Forall₂ (fun r er => er.location = r.location ∧
      er.content = r.content ∧ er.signedUrl ≠ "")
      citation.retrievedReferences ers := by
    refine List.Forall₂.imp ?_ hforall
    intro r er hre
    cases hloc : parseS3Uri r.location.s3Location.uri with
    | error e => simp [resolveReference, hloc] at hre
    | ok loc =>
      simp only [resolveReference, hloc, Except.ok.injEq] at hre
      subst hre
      exact ⟨rfl, rfl, hsigner loc⟩
  exact ⟨{ metadata := citation.metadata, retrievedReferences := ers },
    by simp [parseCitation, hers], rfl, hlen, hprop⟩

/-- Witness for C5: a citation with three well-formed references resolves
to three enriched references in order, each with a nonempty signed URL. -/
theorem parseCitation_resolves_all_witness :
    (∀ r ∈ [
        Reference.mk (ReferenceLocation.mk (S3LocationField.mk "s3://docs/a.pdf")) "r1",
        Reference.mk (ReferenceLocation.mk (S3LocationField.mk "s3://docs/b.pdf")) "r2",
        Reference.mk (ReferenceLocation.mk (S3LocationField.mk "s3://docs/c.pdf")) "r3"],
      ∃ loc, parseS3Uri r.location.s3Location.uri = .ok loc) ∧
    (∀ loc : S3Location,
      (fun (_ : S3Location) (_ : Nat) => "https://signed.example/doc") loc 3600 ≠ "") ∧
    ∃ ec, parseCitation (fun _ _ => "https://signed.example/doc")
        (Citation.mk "m3" [
          Reference.mk (ReferenceLocation.mk (S3LocationField.mk "s3://docs/a.pdf")) "r1",
          Reference.mk (ReferenceLocation.mk (S3LocationField.mk "s3://docs/b.pdf")) "r2",
          Reference.mk (ReferenceLocation.mk (S3LocationField.mk "s3://docs/c.pdf")) "r3"]) =
        .ok ec ∧
      ec.metadata = "m3" ∧
      ec.retrievedReferences.length = 3 ∧
      List.Forall₂ (fun r er => er.location = r.location ∧
          er.content = r.content ∧ er.signedUrl ≠ "")
        [Reference.mk (ReferenceLocation.mk (S3LocationField.mk "s3://docs/a.pdf")) "r1",
         Reference.mk (ReferenceLocation.mk (S3LocationField.mk "s3://docs/b.pdf")) "r2",
         Reference.mk (ReferenceLocation.mk (S3LocationField.mk "s3://docs/c.pdf")) "r3"]
        ec.retrievedReferences := by
  have hok : ∀ r ∈ [
      Reference.mk (ReferenceLocation.mk (S3LocationField.mk "s3://docs/a.pdf")) "r1",
      Reference.mk (ReferenceLocation.mk (S3LocationField.mk "s3://docs/b.pdf")) "r2",
      Reference.mk (ReferenceLocation.mk (S3LocationField.mk "s3://docs/c.pdf")) "r3"],
      ∃ loc, parseS3Uri r.location.s3Location.uri = .ok loc := by
    intro r hr
    simp only [List.mem_cons, List.not_mem_nil, or_false] at hr
    rcases hr with h | h | h <;> subst h <;> exact ⟨_, rfl⟩
  have hsigner : ∀ loc : S3Location,
      (fun (_ : S3Location) (_ : Nat) => "https://signed.example/doc") loc 3600 ≠ "" := by
    intro loc
    show "https://signed.example/doc" ≠ ""
    decide
  refine ⟨hok, hsigner, ?_⟩
  exact parseCitation_resolves_all (fun _ _ => "https://signed.example/doc")
    (Citation.mk "m3" [
      Reference.mk (ReferenceLocation.mk (S3LocationField.mk "s3://docs/a.pdf")) "r1",
      Reference.mk (ReferenceLocation.mk (S3LocationField.mk "s3://docs/b.pdf")) "r2",
      Reference.mk (ReferenceLocation.mk (S3LocationField.mk "s3://docs/c.pdf")) "r3"])
    hok hsigner

/- ## Agent client (`src/agent.js`) -/

/-- A stubbed upstream response to `InvokeAgentCommand`: the `completion`
field is the finite ordered stream of chunk events, each carried here as
the UTF-8 decoded text of its bytes; `none` models a response whose
`completion` field is `undefined`. -/
structure AgentStubResponse where
  completion : Option (List String)
deriving DecidableEq, Repr

/-- The value `invokeBedrockAgent` returns on its success path. -/
structure AgentResult where
  sessionId : String
  completion : String
deriving DecidableEq, Repr

/-- The `try` block of `invokeBedrockAgent` in `src/agent.js`: throw
`Error("Completion is undefined")` when the upstream response has no
completion stream, otherwise consume the stream in arrival order,
appending the decoded text of each chunk to the accumulating completion
string, and return the session identifier together with the completion. -/
def invokeBedrockAgentTry (response : AgentStubResponse)
    (sessionId : String) : Except JsError AgentResult :=
  match response.completion with
  | none => .error { message := "Completion is undefined", code := none }
  | some chunks =>
    .ok { sessionId := sessionId,
          completion := chunks.foldl (fun completion decodedResponse =>
            completion ++ decodedResponse) "" }

/-- The whole of `invokeBedrockAgent` in `src/agent.js`: the `try` block
wrapped in the catch-all handler, which logs the error and falls through,
so the async function resolves with `undefined` (`Option.none`) whenever
the `try` block throws.  The outer `Except` layer is the promise rejection
channel of the async function; the catch-all guarantees it is never used. -/
def invokeBedrockAgent (response : AgentStubResponse) (prompt : String)
    (sessionId : String) : Except JsError (Option AgentResult) :=
  match invokeBedrockAgentTry response sessionId with
  | .ok result => .ok (some result)
  | .error _ => .ok none

/-- Counterexample for C3: against an upstream response whose completion
field is undefined, `invokeBedrockAgent` does not surface any error to the
caller; the promise resolves with `undefined`. -/
theorem invokeBedrockAgent_error_swallowed_cex :
    invokeBedrockAgent (AgentStubResponse.mk none) "hello" "abc" = .ok none ∧
    (invokeBedrockAgent (AgentStubResponse.mk none) "hello" "abc").isOk = true := by
  exact ⟨rfl, rfl⟩

/-- C3 as amended: when the upstream response indicates no completion
stream, the `try` block of `invokeBedrockAgent` throws the protocol error,
but the catch-all handler of the same function logs and swallows it, so the
caller receives `undefined` instead of a result, and no error is
surfaced. -/
theorem invokeBedrockAgent_error_swallowed (response : AgentStubResponse)
    (prompt sessionId : String) (h : response.completion = none) :
    invokeBedrockAgentTry response sessionId =
      .error { message := "Completion is undefined", code := none } ∧
    invokeBedrockAgent response prompt sessionId = .ok none := by
  have htry : invokeBedrockAgentTry response sessionId =
      .error { message := "Completion is undefined", code := none } := by
    unfold invokeBedrockAgentTry
    rw [h]
  refine ⟨htry, ?_⟩
  unfold invokeBedrockAgent
  rw [htry]

/-- Witness for C3 as amended, at a concrete stub with no completion. -/
theorem invokeBedrockAgent_error_swallowed_witness :
    (AgentStubResponse.mk none).completion = none ∧
    invokeBedrockAgent (AgentStubResponse.mk none) "hi" "s1" = .ok none := by
  exact ⟨rfl, (invokeBedrockAgent_error_swallowed (AgentStubResponse.mk none)
    "hi" "s1" rfl).2⟩

/-- C6: for every finite ordered chunk sequence, `invokeBedrockAgent`
returns the concatenation of the decoded chunk texts in arrival order
together with the session identifier it was given; in particular the stub
stream with chunks He and llo yields completion Hello and echoes session
identifier abc. -/
theorem invokeBedrockAgent_concatenates_chunks :
    (∀ (chunks : List String) (prompt sessionId : String),
      invokeBedrockAgent (AgentStubResponse.mk (some chunks)) prompt sessionId =
        .ok (some (AgentResult.mk sessionId (String.join chunks)))) ∧
    invokeBedrockAgent (AgentStubResponse.mk (some ["He", "llo"])) "hello" "abc" =
      .ok (some (AgentResult.mk "abc" "Hello")) := by
  constructor
  · intro chunks prompt sessionId
    rfl
  · rfl

/- ## Retrieval client (`src/retrieval.js`) -/

/-- The vector search result count fixed in `src/retrieval.js`. -/
def NUMBER_OF_RESULTS : Nat := 5

/-- The search type override fixed in `src/retrieval.js`. -/
def OVERRIDE_SEARCH_TYPE : String := "HYBRID"

/-- The retrieve-and-generate configuration type fixed in
`src/retrieval.js`. -/
def MODEL_TYPE : String := "KNOWLEDGE_BASE"

/-- JavaScript truthiness of a string-or-undefined value: `undefined` and
the empty string are falsy. -/
def jsTruthy : Option String → Bool
  | none => false
  | some s => !s.isEmpty

/-- The fields of the `RetrieveAndGenerateCommand` request relevant to the
claims: the query text, the fixed configuration constants, and the session
identifier, which is present only when the caller-supplied one is truthy
(the `if (sessionId) input.sessionId = sessionId` lines). -/
structure RRRequest where
  inputText : String
  modelType : String
  numberOfResults : Nat
  overrideSearchType : String
  sessionId : Option String
deriving DecidableEq, Repr

/-- Build the upstream request exactly as `invokeBedrockRetrieval` does. -/
def buildRetrievalRequest (prompt : String) (sessionId : Option String) : RRRequest :=
  { inputText := prompt,
    modelType := MODEL_TYPE,
    numberOfResults := NUMBER_OF_RESULTS,
    overrideSearchType := OVERRIDE_SEARCH_TYPE,
    sessionId := if jsTruthy sessionId then sessionId else none }

/-- A stubbed upstream response to `RetrieveAndGenerateCommand`: the
session identifier assigned by the upstream, the generated output text
(`response?.output?.text`), the citation list and the guardrail action. -/
structure RRStubResponse where
  sessionId : Option String
  outputText : Option String
  citations : List Citation
  guardrailAction : Option String
deriving DecidableEq, Repr

/-- The innermost object built by `invokeBedrockRetrieval`:
`{ output: { text }, citations, guardrailAction }`. -/
structure RRCore where
  outputText : Option String
  citations : List EnrichedCitation
  guardrailAction : Option String
deriving DecidableEq, Repr

/-- The `result` object built by `invokeBedrockRetrieval`: the upstream
session identifier paired with the normalized core. -/
structure RRResult where
  sessionId : Option String
  response : RRCore
deriving DecidableEq, Repr

/-- The value `invokeBedrockRetrieval` actually returns:
`{ sessionId: sessionId, response: result }`, where `sessionId` is the
caller-supplied argument and `result` is the object above. -/
structure RetrievalReturn where
  sessionId : Option String
  response : RRResult
deriving DecidableEq, Repr

/-- The `invokeBedrockRetrieval` function of `src/retrieval.js` against a
stubbed upstream: resolve every citation of the upstream response through
`parseCitation` under `Promise.all`, build `result` from the upstream
session identifier, output text, resolved citations and guardrail action,
and return the caller-supplied session identifier paired with `result`.
Errors thrown while resolving citations are plain errors, not upstream
`ServiceException` values, so the catch block of the source re-throws them
unchanged, which the error propagation of `Except` models directly. -/
def invokeBedrockRetrieval (signer : S3Location → Nat → String)
    (upstream : RRStubResponse) (prompt : String)
    (sessionId : Option String) : Except JsError RetrievalReturn :=
  match promiseAll (upstream.citations.map (parseCitation signer)) with
  | .error e => .error e
  | .ok citations =>
    .ok { sessionId := sessionId,
          response := { sessionId := upstream.sessionId,
                        response := { outputText := upstream.outputText,
                                      citations := citations,
                                      guardrailAction := upstream.guardrailAction } } }

/-- C1 evaluated at its failing input: calling the retrieval client without
a session identifier sends no session identifier upstream (first conjunct,
which is the half of the claim the code honours), but the session
identifier assigned by the upstream, here S1, is not returned as the
result's `sessionId` field: the result echoes the caller's `undefined`
there, and S1 only appears nested at `response.sessionId`. -/
theorem invokeBedrockRetrieval_sessionId_bug_eval :
    (buildRetrievalRequest "what is x?" none).sessionId = none ∧
    invokeBedrockRetrieval (fun _ _ => "https://signed.example/doc")
        (RRStubResponse.mk (some "S1") (some "answer") [] none) "what is x?" none =
      .ok (RetrievalReturn.mk none
        (RRResult.mk (some "S1") (RRCore.mk (some "answer") [] none))) := by
  exact ⟨rfl, rfl⟩

/-- C2 evaluated at its failing input: on success the retrieval client does
not return the normalized shape with the output text at
`response.output.text`; it returns a doubly wrapped value whose output text
sits one level deeper, at `response.response.output.text`. -/
theorem invokeBedrockRetrieval_shape_bug_eval :
    invokeBedrockRetrieval (fun _ _ => "https://signed.example/doc")
        (RRStubResponse.mk (some "S2") (some "answer")
          [Citation.mk "meta1"
            [Reference.mk (ReferenceLocation.mk (S3LocationField.mk "s3://docs/guide.pdf")) "c1"]]
          (some "NONE")) "what is x?" (some "sess-42") =
      .ok (RetrievalReturn.mk (some "sess-42")
        (RRResult.mk (some "S2")
          (RRCore.mk (some "answer")
            [EnrichedCitation.mk "meta1"
              [EnrichedReference.mk (ReferenceLocation.mk (S3LocationField.mk "s3://docs/guide.pdf"))
                "c1" "https://signed.example/doc"]]
            (some "NONE")))) ∧
    Except.map (fun r => r.response.response.outputText)
        (invokeBedrockRetrieval (fun _ _ => "https://signed.example/doc")
          (RRStubResponse.mk (some "S2") (some "answer")
            [Citation.mk "meta1"
              [Reference.mk (ReferenceLocation.mk (S3LocationField.mk "s3://docs/guide.pdf")) "c1"]]
            (some "NONE")) "what is x?" (some "sess-42")) =
      .ok (some "answer") := by
  exact ⟨rfl, rfl⟩

/- ## HTTP facade: the `POST /retrieve` handler (`src/index.js`) -/

/-- The parsed JSON body of a `POST /retrieve` request: both fields may be
absent. -/
structure RetrieveRequestBody where
  message : Option String
  session_id : Option String
deriving DecidableEq, Repr

/-- The dynamic behaviour of the call `sanitizeSessionID(session_id)` in
the handler: applying `input.replace` to `undefined` throws a `TypeError`
(with no numeric `code` field); on a string it is the pure
`sanitizeSessionID`. -/
def applySanitizeSessionID (input : Option String) : Except JsError String :=
  match input with
  | none => .error { message := "Cannot read properties of undefined", code := none }
  | some s => .ok (sanitizeSessionID s)

/-- JavaScript `error?.code || 500`: `undefined` and `0` are falsy. -/
def codeOr500 : Option Nat → Nat
  | none => 500
  | some c => if c = 0 then 500 else c

/-- The response the handler sends: a `400` bad-request object, an error
status with the error message as JSON, or a `200` with the retrieval
client's return value as JSON. -/
inductive RetrieveResponse
  | badRequest (error : String)
  | errorStatus (status : Nat) (message : String)
  | ok (value : RetrievalReturn)
deriving DecidableEq, Repr

/-- The HTTP status of a handler response. -/
def RetrieveResponse.status : RetrieveResponse → Nat
  | .badRequest _ => 400
  | .errorStatus s _ => s
  | .ok _ => 200

/-- The `POST /retrieve` handler of `src/index.js`: reject a missing or
falsy `message` with `400`, then inside the `try` block sanitize the
prompt, sanitize the session identifier, and invoke the retrieval client;
any thrown error is answered with status `error?.code || 500` and the error
message as JSON.  The second component records whether the retrieval
client was invoked. -/
def retrieveHandler (signer : S3Location → Nat → String)
    (upstream : RRStubResponse) (body : RetrieveRequestBody) :
    RetrieveResponse × Bool :=
  match body.message with
  | none => (.badRequest "Prompt is required", false)
  | some message =>
    if message.isEmpty then (.badRequest "Prompt is required", false)
    else
      match sanitize message with
      | .error e => (.errorStatus (codeOr500 e.code) e.message, false)
      | .ok sanitizedPrompt =>
        match applySanitizeSessionID body.session_id with
        | .error e => (.errorStatus (codeOr500 e.code) e.message, false)
        | .ok sanitizedSessionId =>
          match invokeBedrockRetrieval signer upstream sanitizedPrompt
              (some sanitizedSessionId) with
          | .error e => (.errorStatus (codeOr500 e.code) e.message, true)
          | .ok response => (.ok response, true)

/-- C10: a `POST /retrieve` request that carries a message but omits
`session_id` always yields a `500` response and never reaches the
retrieval client, because the handler applies the session sanitizer to the
undefined `session_id` (when the prompt itself passes sanitization, the
response is exactly the swallowed `TypeError` with status 500); the
nominally optional session identifier is therefore required in practice. -/
theorem retrieveHandler_missing_session_500
    (signer : S3Location → Nat → String) (upstream : RRStubResponse)
    (m : String) (hm : m.isEmpty = false) :
    (retrieveHandler signer upstream
      (RetrieveRequestBody.mk (some m) none)).1.status = 500 ∧
    (retrieveHandler signer upstream
      (RetrieveRequestBody.mk (some m) none)).2 = false ∧
    ((∃ sp, sanitize m = .ok sp) →
      (retrieveHandler signer upstream
        (RetrieveRequestBody.mk (some m) none)).1 =
        .errorStatus 500 "Cannot read properties of undefined") := by
  cases hs : sanitize m with
  | error e =>
    have he : e = { message := "Prompt is too long", code := none } := by
      unfold sanitize at hs
      by_cases hlen : (sanitizeClean m).length > 2048
      · simp [hlen] at hs
        exact hs.symm
      · simp [hlen] at hs
    refine ⟨?_, ?_, ?_⟩
    · simp [retrieveHandler, hm, hs, he, codeOr500, RetrieveResponse.status]
    · simp [retrieveHandler, hm, hs]
    · intro hex
      obtain ⟨sp, hsp⟩ := hex
      simp [hs] at hsp
  | ok sp =>
    refine ⟨?_, ?_, ?_⟩
    · simp [retrieveHandler, hm, hs, applySanitizeSessionID, codeOr500,
        RetrieveResponse.status]
    · simp [retrieveHandler, hm, hs, applySanitizeSessionID]
    · intro _
      simp [retrieveHandler, hm, hs, applySanitizeSessionID, codeOr500]

/-- Witness for C10 at a concrete request body with a message and no
session identifier. -/
theorem retrieveHandler_missing_session_500_witness :
    ("hi" : String).isEmpty = false ∧
    (retrieveHandler (fun _ _ => "https://signed.example/doc")
      (RRStubResponse.mk (some "S1") (some "answer") [] none)
      (RetrieveRequestBody.mk (some "hi") none)).1.status = 500 ∧
    (retrieveHandler (fun _ _ => "https://signed.example/doc")
      (RRStubResponse.mk (some "S1") (some "answer") [] none)
      (RetrieveRequestBody.mk (some "hi") none)).2 = false := by
  have h := retrieveHandler_missing_session_500
    (fun _ _ => "https://signed.example/doc")
    (RRStubResponse.mk (some "S1") (some "answer") [] none) "hi" rfl
  exact ⟨rfl, h.1, h.2.1⟩
